import Mathlib

/-!
Shallow embedding of the Aura Global News Mood Map pipeline
(news ingestion, sentiment scoring, risk levelling, storage,
derived-signal engines) and proofs of its specified properties.

Numeric values that the Python code holds in IEEE floats are modelled
as rationals (ℚ); every threshold and weight in the code is a decimal
literal that is exact in ℚ, and none of the verified properties depends
on float rounding.  Python's NaN (which arises from pandas sample
standard deviations of singleton groups) is modelled with Option:
none stands for NaN, and the code's comparisons against NaN, which are
always false, are translated accordingly.
-/

namespace Aura

/-! ### src/config/settings.py — RiskThresholdsConfig -/

/-- `RiskThresholdsConfig` from src/config/settings.py: the four
risk thresholds with their dataclass defaults. -/
structure RiskThresholdsConfig where
  critical : ℚ := -7/10
  warning : ℚ := -4/10
  normal : ℚ := 0
  positive : ℚ := 1/2

/-- `RiskThresholdsConfig.get_risk_level` from src/config/settings.py:
maps a sentiment score to one of five risk labels. -/
def RiskThresholdsConfig.get_risk_level (cfg : RiskThresholdsConfig) (score : ℚ) : String :=
  if score ≤ cfg.critical then "🔴 KRİTİK"
  else if score ≤ cfg.warning then "🟠 UYARI"
  else if score < cfg.normal then "🟡 NORMAL"
  else if score < cfg.positive then "🟢 POZİTİF"
  else "🟢 ÇOK POZİTİF"

/-- The default-constructed thresholds (all dataclass defaults). -/
def defaultThresholds : RiskThresholdsConfig := {}

/-- `NewsAnalyzer.calculate_risk_level` from src/main_old.py, with the
thresholds CRITICAL_THRESHOLD = -0.7, WARNING_THRESHOLD = -0.4,
POSITIVE_THRESHOLD = 0.5 from src/config.py.  This older generation has
four labels and tests the positive threshold before the normal case. -/
def calculate_risk_level (sentiment_score : ℚ) : String :=
  if sentiment_score ≤ -7/10 then " KRİTİK"
  else if sentiment_score ≤ -4/10 then " UYARI"
  else if sentiment_score ≥ 1/2 then " POZİTİF"
  else " NORMAL"

/-! ### src/main.py — DistilBERTSentimentAnalyzer -/

/-- Outcome of one call to the underlying transformer pipeline:
either a label/confidence pair (the first element of the returned
list) or a raised exception. -/
inductive ModelResult where
  | ok (label : String) (score : ℚ)
  | failure
deriving DecidableEq

/-- `DistilBERTSentimentAnalyzer.analyze` from src/main.py.
The analyzer's `self.pipeline` field is `none` when model loading
failed in `__init__`; the text argument is `none` when the caller
passed a non-string (the `isinstance` guard).  An empty string is
falsy in Python, hence the `""` case. -/
def analyze (pipeline : Option (String → ModelResult)) (text : Option String) : ℚ :=
  match text with
  | none => 0
  | some t =>
    if t = "" then 0
    else
      match pipeline with
      | none => 0
      | some run =>
        match run (t.take 512) with
        | ModelResult.failure => 0
        | ModelResult.ok label confidence =>
            (round (((if label = "POSITIVE" then (1 : ℚ) else -1) * confidence) * 10000) : ℤ) / 10000

/-- The model's confidence, whenever the pipeline returns one, lies in
[0, 1] (softmax output of the classifier). -/
def ConfidenceBounded (pipeline : Option (String → ModelResult)) : Prop :=
  ∀ run s label c, pipeline = some run → run s = ModelResult.ok label c → 0 ≤ c ∧ c ≤ 1

/-- Monotonicity of rounding, used to bound the 4-decimal rounding in
`analyze`. -/
theorem round_rat_mono {a b : ℚ} (h : a ≤ b) : round a ≤ round b := by
  rw [round_eq, round_eq]
  exact Int.floor_mono (by linarith)

theorem round_rat_le_of_le {x : ℚ} {n : ℤ} (h : x ≤ (n : ℚ)) : round x ≤ n := by
  have := round_rat_mono h
  rwa [round_intCast] at this

theorem le_round_rat_of_le {x : ℚ} {n : ℤ} (h : (n : ℚ) ≤ x) : n ≤ round x := by
  have := round_rat_mono h
  rwa [round_intCast] at this

/-- Claim C1 (counterexample): the claimed example mappings are false on
`RiskThresholdsConfig.get_risk_level` with the default thresholds.  Score 0.0
maps to the Positive label (the claim's own general rule says so, but its
example says Normal), and score 0.7 maps to the Very Positive label (the
claim's example says Positive). -/
theorem get_risk_level_claimed_examples_false :
    defaultThresholds.get_risk_level 0 = "🟢 POZİTİF" ∧
    ("🟢 POZİTİF" : String) ≠ "🟡 NORMAL" ∧
    defaultThresholds.get_risk_level (7/10) = "🟢 ÇOK POZİTİF" ∧
    ("🟢 ÇOK POZİTİF" : String) ≠ "🟢 POZİTİF" := by
  refine ⟨?_, by decide, ?_, by decide⟩ <;>
    norm_num [RiskThresholdsConfig.get_risk_level, defaultThresholds]

/-- Claim C1 (amended): with the default thresholds (critical −0.7, warning
−0.4, normal 0.0, positive 0.5), `get_risk_level` is a pure function of the
score returning the Critical label iff s ≤ −0.7, Warning iff −0.7 < s ≤ −0.4,
Normal iff −0.4 < s < 0, Positive iff 0 ≤ s < 0.5 and Very Positive iff
s ≥ 0.5; in particular −0.8 maps to Critical, −0.5 to Warning, 0.0 to
Positive and 0.7 to Very Positive. -/
theorem get_risk_level_default_characterization (s : ℚ) :
    (defaultThresholds.get_risk_level s = "🔴 KRİTİK" ↔ s ≤ -7/10) ∧
    (defaultThresholds.get_risk_level s = "🟠 UYARI" ↔ -7/10 < s ∧ s ≤ -4/10) ∧
    (defaultThresholds.get_risk_level s = "🟡 NORMAL" ↔ -4/10 < s ∧ s < 0) ∧
    (defaultThresholds.get_risk_level s = "🟢 POZİTİF" ↔ 0 ≤ s ∧ s < 1/2) ∧
    (defaultThresholds.get_risk_level s = "🟢 ÇOK POZİTİF" ↔ 1/2 ≤ s) ∧
    defaultThresholds.get_risk_level (-8/10) = "🔴 KRİTİK" ∧
    defaultThresholds.get_risk_level (-1/2) = "🟠 UYARI" ∧
    defaultThresholds.get_risk_level 0 = "🟢 POZİTİF" ∧
    defaultThresholds.get_risk_level (7/10) = "🟢 ÇOK POZİTİF" := by
  refine ⟨?_, ?_, ?_, ?_, ?_, ?_, ?_, ?_, ?_⟩ <;>
      unfold RiskThresholdsConfig.get_risk_level defaultThresholds <;>
      norm_num <;>
      try (split_ifs with h1 h2 h3 <;> simp_all <;> try linarith)
  all_goals intro h
  all_goals linarith

/-- Claim C3: every score produced by `analyze` lies in [−1, 1], assuming
the model's confidence values lie in [0, 1]: the result is either the
neutral 0.0 or round(±confidence, 4). -/
theorem analyze_score_in_unit_interval (p : Option (String → ModelResult))
    (text : Option String) (h : ConfidenceBounded p) :
    -1 ≤ analyze p text ∧ analyze p text ≤ 1 := by
  rcases text with _ | t
  · norm_num [analyze]
  · by_cases ht : t = ""
    · subst ht; norm_num [analyze]
    · rcases p with _ | run
      · norm_num [analyze, ht]
      · rcases hr : run (t.take 512) with ⟨label, c⟩ | ⟨⟩
        · have hred : analyze (some run) (some t) =
              (round (((if label = "POSITIVE" then (1:ℚ) else -1) * c) * 10000) : ℤ) / 10000 := by
            simp only [analyze, if_neg ht, hr]
          rw [hred]
          obtain ⟨hc0, hc1⟩ := h run (t.take 512) label c rfl hr
          set x : ℚ := (if label = "POSITIVE" then (1 : ℚ) else -1) * c with hx
          have hxb : -1 ≤ x ∧ x ≤ 1 := by
            rw [hx]; split_ifs <;> constructor <;> linarith
          have hub : (round (x * 10000) : ℤ) ≤ 10000 :=
            round_rat_le_of_le (by push_cast; linarith [hxb.2])
          have hlb : (-10000 : ℤ) ≤ round (x * 10000) :=
            le_round_rat_of_le (by push_cast; linarith [hxb.1])
          constructor
          · rw [le_div_iff₀ (by norm_num : (0:ℚ) < 10000)]
            calc (-1 : ℚ) * 10000 = ((-10000 : ℤ) : ℚ) := by norm_num
            _ ≤ (round (x * 10000) : ℚ) := by exact_mod_cast hlb
          · rw [div_le_one (by norm_num : (0:ℚ) < 10000)]
            exact_mod_cast hub
        · norm_num [analyze, ht, hr]

/-- Claim C3 witness: a concrete pipeline returning confidence 0.9 on a
concrete headline satisfies the hypothesis, and the score is in [−1, 1]. -/
theorem analyze_score_in_unit_interval_witness :
    ConfidenceBounded (some (fun _ => ModelResult.ok ("POSITIVE") (9/10))) ∧
    (-1 ≤ analyze (some (fun _ => ModelResult.ok ("POSITIVE") (9/10)))
        (some ("Chip stocks rally")) ∧
      analyze (some (fun _ => ModelResult.ok ("POSITIVE") (9/10)))
        (some ("Chip stocks rally")) ≤ 1) := by
  have hcb : ConfidenceBounded (some (fun _ => ModelResult.ok ("POSITIVE") (9/10))) := by
    intro run s label c hp hr
    obtain rfl := Option.some.inj hp
    injection hr with h1 h2
    subst h2
    norm_num
  exact ⟨hcb, analyze_score_in_unit_interval _ _ hcb⟩

/-- Claim C4: on any failure — missing pipeline, non-string input, empty
input, or an exception from the underlying model call — `analyze` returns
exactly 0.0; it is a total function, so the caller always receives a
number. -/
theorem analyze_failure_neutral_zero (p : Option (String → ModelResult))
    (text : Option String) (run : String → ModelResult) (t : String)
    (h : p = none ∨ text = none ∨ text = some "" ∨
        (p = some run ∧ text = some t ∧ run (t.take 512) = ModelResult.failure)) :
    analyze p text = 0 := by
  rcases h with rfl | rfl | rfl | ⟨rfl, rfl, hfail⟩
  · rcases text with _ | t
    · rfl
    · by_cases ht : t = ""
      · subst ht; norm_num [analyze]
      · norm_num [analyze, ht]
  · rfl
  · norm_num [analyze]
  · by_cases ht : t = ""
    · subst ht; norm_num [analyze]
    · norm_num [analyze, ht, hfail]

/-- Claim C4 witness: a pipeline whose call raises is mapped to 0.0 on a
concrete headline. -/
theorem analyze_failure_neutral_zero_witness :
    analyze (some (fun _ => ModelResult.failure)) (some ("breaking news")) = 0 :=
  analyze_failure_neutral_zero _ _ (fun _ => ModelResult.failure) ("breaking news")
    (Or.inr (Or.inr (Or.inr ⟨rfl, rfl, rfl⟩)))

/-! ### src/database/repository.py — SQLiteNewsRepository -/

/-- One row of the haberler table (NewsSchema in
src/database/repository.py). -/
structure NewsRow where
  ulke : String
  tarih : String
  baslik : String
  skor : ℚ
  url : String
  kategori : String
  kaynak : String
  risk_seviyesi : String

/-- Whether inserting `n` into the current table contents raises
sqlite3.IntegrityError: the schema declares `url TEXT UNIQUE` and
`UNIQUE(baslik, url)`. -/
def violatesUnique (store : List NewsRow) (n : NewsRow) : Bool :=
  store.any (fun r => r.url == n.url || (r.baslik == n.baslik && r.url == n.url))

/-- `SQLiteNewsRepository.add_news`: per-record insert inside one
transaction; an IntegrityError (duplicate) is silently skipped and the
loop continues; returns the committed table contents together with
`inserted_count`. -/
def add_news (store : List NewsRow) : List NewsRow → List NewsRow × Nat
  | [] => (store, 0)
  | n :: rest =>
    if violatesUnique store n then add_news store rest
    else
      let res := add_news (store ++ [n]) rest
      (res.1, res.2 + 1)

/-- The storage invariant of claim C2: at most one stored record per
(title, url) pair. -/
abbrev PairwiseDedup (store : List NewsRow) : Prop :=
  store.Pairwise (fun a b => ¬(a.baslik = b.baslik ∧ a.url = b.url))

theorem not_violatesUnique_iff (store : List NewsRow) (n : NewsRow) :
    violatesUnique store n = false ↔ ∀ r ∈ store, r.url ≠ n.url := by
  simp only [violatesUnique, List.any_eq_false, Bool.or_eq_true, beq_iff_eq,
    Bool.and_eq_true, not_or, not_and]
  constructor
  · intro h r hr
    exact (h r hr).1
  · intro h r hr
    exact ⟨h r hr, fun _ => h r hr⟩

/-- Claim C2: `add_news` grows the store by exactly the returned count
(each batch record is inserted individually and duplicates are silently
skipped, never errors), and it preserves the invariant that at most one
record exists per (title, url) pair. -/
theorem add_news_dedup_invariant (store batch : List NewsRow)
    (h : PairwiseDedup store) :
    (add_news store batch).1.length = store.length + (add_news store batch).2 ∧
    PairwiseDedup (add_news store batch).1 := by
  induction batch generalizing store with
  | nil => simpa [add_news] using h
  | cons n rest ih =>
    by_cases hv : violatesUnique store n
    · simpa [add_news, hv] using ih store h
    · have hv' : violatesUnique store n = false := by
        simpa using hv
      have hfresh : ∀ r ∈ store, r.url ≠ n.url :=
        (not_violatesUnique_iff store n).mp hv'
      have hinv : PairwiseDedup (store ++ [n]) := by
        unfold PairwiseDedup at h ⊢
        rw [List.pairwise_append]
        refine ⟨h, List.pairwise_singleton _ _, ?_⟩
        intro a ha b hb hab
        simp only [List.mem_singleton] at hb
        subst hb
        exact hfresh a ha hab.2
      have := ih (store ++ [n]) hinv
      constructor
      · simp only [add_news, hv', Bool.false_eq_true, if_false]
        have hlen := this.1
        simp only [List.length_append, List.length_singleton] at hlen
        omega
      · simp only [add_news, hv', Bool.false_eq_true, if_false]
        exact this.2

/-- A one-record store for the claim C2 scenario. -/
def sampleStore : List NewsRow :=
  [⟨"us", "2024-01-01", "AI chips surge", 0, "https://example.com/a", "AI", "TestAPI", "N"⟩]

/-- A batch of three articles, the first of which duplicates the
(title, url) pair already present in `sampleStore`. -/
def sampleBatch : List NewsRow :=
  [⟨"us", "2024-01-02", "AI chips surge", 0, "https://example.com/a", "AI", "TestAPI", "N"⟩,
   ⟨"us", "2024-01-02", "Breach reported", 0, "https://example.com/b", "Cyber", "TestAPI", "N"⟩,
   ⟨"us", "2024-01-02", "Markets calm", 0, "https://example.com/c", "Fin", "TestAPI", "N"⟩]

/-- Claim C2 witness: on the scenario store and batch the hypothesis
holds, the invariant is preserved, `add_news` returns 2 and the store
grows from 1 to 3 records. -/
theorem add_news_dedup_invariant_witness :
    PairwiseDedup sampleStore ∧
    ((add_news sampleStore sampleBatch).1.length =
        sampleStore.length + (add_news sampleStore sampleBatch).2 ∧
      PairwiseDedup (add_news sampleStore sampleBatch).1) ∧
    (add_news sampleStore sampleBatch).2 = 2 ∧
    (add_news sampleStore sampleBatch).1.length = 3 :=
  ⟨by decide, add_news_dedup_invariant sampleStore sampleBatch (by decide),
    by decide, by decide⟩

/-! ### src/utils.py — AnomalyDetector -/

/-- Column mean, as pandas computes it on a non-empty column. -/
def mean (xs : List ℚ) : ℚ := xs.sum / xs.length

/-- Pandas sample variance (`std` squared, ddof = 1).  `none` models
the NaN pandas returns for fewer than two observations. -/
def sampleVar? (xs : List ℚ) : Option ℚ :=
  if xs.length ≤ 1 then none
  else some ((xs.map (fun x => (x - mean xs)^2)).sum / ((xs.length : ℚ) - 1))

/-- `AnomalyDetector.detect_spikes` from src/utils.py, restricted to
the scored column: the per-row is_anomaly flags.  The source compares
z-scores |x − mean| / std against the threshold; since std = √var is
irrational in general, the comparison is embedded in the equivalent
squared form threshold² · var < (x − mean)², which agrees with the
source for every threshold ≥ 0 (`zscore_sq_iff` below proves the
equivalence against the literal z-score formula).  When std is NaN
(singleton column) every NaN comparison is false, so no row is
flagged. -/
def detect_spikes (xs : List ℚ) (threshold : ℚ) : List Bool :=
  if xs.isEmpty then []
  else
    match sampleVar? xs with
    | none => xs.map (fun _ => false)
    | some v =>
      if v = 0 then xs.map (fun _ => false)
      else xs.map (fun x => decide (threshold^2 * v < (x - mean xs)^2))

theorem sampleVar?_nonneg (xs : List ℚ) (v : ℚ) (h : sampleVar? xs = some v) :
    0 ≤ v := by
  unfold sampleVar? at h
  split_ifs at h with hlen
  obtain rfl := Option.some.inj h
  apply div_nonneg
  · apply List.sum_nonneg
    intro y hy
    obtain ⟨x, hx, rfl⟩ := List.mem_map.mp hy
    positivity
  · push_neg at hlen
    have h2 : (2:ℚ) ≤ (xs.length : ℚ) := by exact_mod_cast hlen
    linarith

/-- The squared comparison used in `detect_spikes` agrees with the
source's z-score comparison |x − mean| / std > threshold. -/
theorem zscore_sq_iff (x m v t : ℚ) (hv : 0 < v) (ht : 0 ≤ t) :
    (t^2 * v < (x - m)^2) ↔
      (t : ℝ) < |(x : ℝ) - (m : ℝ)| / Real.sqrt (v : ℝ) := by
  have hv' : (0:ℝ) < (v:ℝ) := by exact_mod_cast hv
  have hs : (0:ℝ) < Real.sqrt (v : ℝ) := Real.sqrt_pos.mpr hv'
  have hsq : Real.sqrt (v : ℝ) ^ 2 = (v:ℝ) := Real.sq_sqrt hv'.le
  have ht' : (0:ℝ) ≤ (t:ℝ) := by exact_mod_cast ht
  rw [lt_div_iff₀ hs]
  constructor
  · intro h
    have h' : (t:ℝ)^2 * (v:ℝ) < ((x:ℝ) - (m:ℝ))^2 := by
      exact_mod_cast h
    by_contra hcon
    push_neg at hcon
    nlinarith [sq_abs ((x:ℝ) - (m:ℝ)), abs_nonneg ((x:ℝ) - (m:ℝ)),
      mul_nonneg ht' hs.le]
  · intro h
    have h' : (t:ℝ)^2 * (v:ℝ) < ((x:ℝ) - (m:ℝ))^2 := by
      nlinarith [sq_abs ((x:ℝ) - (m:ℝ)), abs_nonneg ((x:ℝ) - (m:ℝ)),
        mul_nonneg ht' hs.le]
    exact_mod_cast h'

/-- Claim C5: on a non-empty snapshot with standard deviation 0 the
anomaly detector flags nothing (and never divides by zero — the
degenerate branch returns before any division); otherwise a record is
flagged anomalous exactly when its z-score |x − mean| / std exceeds
the threshold. -/
theorem detect_spikes_spec (xs : List ℚ) (t : ℚ) (hne : xs ≠ []) :
    (sampleVar? xs = some 0 → detect_spikes xs t = xs.map (fun _ => false)) ∧
    (∀ v : ℚ, sampleVar? xs = some v → v ≠ 0 → 0 ≤ t →
      (detect_spikes xs t = xs.map (fun x => decide (t^2 * v < (x - mean xs)^2)) ∧
        ∀ x : ℚ, (t^2 * v < (x - mean xs)^2 ↔
          (t : ℝ) < |(x : ℝ) - ((mean xs : ℚ) : ℝ)| / Real.sqrt ((v : ℚ) : ℝ)))) := by
  constructor
  · intro h0
    unfold detect_spikes
    rw [h0]
    simp [List.isEmpty_iff, hne]
  · intro v hv hv0 ht
    have hvpos : 0 < v := lt_of_le_of_ne (sampleVar?_nonneg xs v hv) (Ne.symm hv0)
    constructor
    · unfold detect_spikes
      rw [hv]
      simp [List.isEmpty_iff, hne, hv0]
    · intro x
      exact zscore_sq_iff x (mean xs) v t hvpos ht

/-- Claim C5 witness: three identical scores have sample variance 0 and
every flag is false. -/
theorem detect_spikes_spec_witness :
    ((([1, 1, 1] : List ℚ) ≠ []) ∧ sampleVar? ([1, 1, 1] : List ℚ) = some 0) ∧
    detect_spikes ([1, 1, 1] : List ℚ) 2 = [false, false, false] := by
  have hne : (([1, 1, 1] : List ℚ) ≠ []) := by simp
  have hv : sampleVar? ([1, 1, 1] : List ℚ) = some 0 := by
    norm_num [sampleVar?, mean, List.sum_cons, List.sum_nil]
  have hmain := (detect_spikes_spec ([1, 1, 1] : List ℚ) 2 hne).1 hv
  refine ⟨⟨hne, hv⟩, ?_⟩
  rw [hmain]
  rfl

/-! ### src/utils.py — TrendPredictor -/

/-- A row of the dashboard snapshot consumed by
`TrendPredictor.predict_sentiment_trend`: country code, date (modelled
as a day number; the source's date strings sort chronologically) and
sentiment score. -/
structure TRow where
  ulke : String
  tarih : ℤ
  skor : ℚ

/-- The country's rows filtered from the snapshot and sorted by the
tarih column, as the source does before windowing. -/
def country_data (df : List TRow) (country : String) : List TRow :=
  List.insertionSort (fun a b => a.tarih ≤ b.tarih)
    (df.filter (fun r => r.ulke == country))

/-- The 30-day lookback window: rows whose date is within 30 days of
the country's most recent date. -/
def recentRows (df : List TRow) (country : String) : List TRow :=
  match ((country_data df country).map (fun r => r.tarih)).max? with
  | none => []
  | some m => (country_data df country).filter (fun r => decide (m - 30 ≤ r.tarih))

/-- The last entry of the rolling mean of width `w`: the mean of the
last `w` entries, NaN (none) when fewer than `w` entries exist. -/
def lastWindowMean (xs : List ℚ) (w : Nat) : Option ℚ :=
  if xs.length < w then none else some (mean (xs.drop (xs.length - w)))

/-- Python's `a > b` on possibly-NaN floats: false whenever either
operand is NaN. -/
def optGtNaN : Option ℚ → Option ℚ → Bool
  | some a, some b => decide (b < a)
  | _, _ => false

/-- The success payload of `predict_sentiment_trend`.  The source
stores the window's standard deviation as volatility; `volatilitySq`
holds its square (the sample variance), which determines it. -/
structure TrendPayload where
  country : String
  current_sentiment : Option ℚ
  ma7 : Option ℚ
  ma30 : Option ℚ
  trend : String
  volatilitySq : Option ℚ

/-- The three shapes of dict `predict_sentiment_trend` returns (the
catch-all error shape is unreachable in the embedding, where every
operation is total). -/
inductive TrendResult where
  | insufficient_data (message : String)
  | no_recent_data
  | success (p : TrendPayload)

/-- `TrendPredictor.predict_sentiment_trend` from src/utils.py. -/
def predict_sentiment_trend (df : List TRow) (country : String) : TrendResult :=
  if (country_data df country).length < 5 then
    TrendResult.insufficient_data ("Yeterli veri yok")
  else if (recentRows df country).isEmpty then
    TrendResult.no_recent_data
  else
    let scores := (recentRows df country).map (fun r => r.skor)
    TrendResult.success
      { country := country
        current_sentiment := scores.getLast?
        ma7 := lastWindowMean scores 7
        ma30 := lastWindowMean scores 30
        trend :=
          if optGtNaN (lastWindowMean scores 7) (lastWindowMean scores 30) then
            " Yükseliş"
          else " Düşüş"
        volatilitySq := sampleVar? scores }

/-- Claim C6: the predictor returns the structured insufficient-data
status exactly when the country has fewer than 5 records, and the
no-recent-data status exactly when the country has at least 5 records
but the 30-day lookback window is empty; it never throws (it is a
total function into `TrendResult`). -/
theorem predict_trend_status_spec (df : List TRow) (country : String) :
    (predict_sentiment_trend df country =
        TrendResult.insufficient_data ("Yeterli veri yok") ↔
      (df.filter (fun r => r.ulke == country)).length < 5) ∧
    (predict_sentiment_trend df country = TrendResult.no_recent_data ↔
      (5 ≤ (df.filter (fun r => r.ulke == country)).length ∧
        recentRows df country = [])) := by
  have hlen : (country_data df country).length =
      (df.filter (fun r => r.ulke == country)).length := by
    unfold country_data
    exact List.length_insertionSort _ _
  unfold predict_sentiment_trend
  rw [hlen]
  split_ifs with h1 h2 <;>
    simp_all [List.isEmpty_iff, Nat.not_lt, Nat.lt_iff_add_one_le]

/-- Claim C7 (counterexample): a country with 10 records — within the
claim's "at least 5 records" scope — gets a success payload whose
7-point average is computed but whose 30-point average is NaN
(rolling(30).mean() needs 30 points), and whose direction label is the
falling label regardless of the scores, refuting the claim that the
direction is the rising label exactly when the 7-point average exceeds
the 30-point average. -/
def shortTrendDf : List TRow :=
  [{ ulke := "us", tarih := 0, skor := -1 },
   { ulke := "us", tarih := 1, skor := -1 },
   { ulke := "us", tarih := 2, skor := -1 },
   { ulke := "us", tarih := 3, skor := 1 },
   { ulke := "us", tarih := 4, skor := 1 },
   { ulke := "us", tarih := 5, skor := 1 },
   { ulke := "us", tarih := 6, skor := 1 },
   { ulke := "us", tarih := 7, skor := 1 },
   { ulke := "us", tarih := 8, skor := 1 },
   { ulke := "us", tarih := 9, skor := 1 }]

set_option maxRecDepth 100000 in
/-- Claim C7 counterexample theorem: see `shortTrendDf`. -/
theorem predict_trend_small_window_counterexample :
    5 ≤ (shortTrendDf.filter (fun r => r.ulke == "us")).length ∧
    ∃ p : TrendPayload,
      predict_sentiment_trend shortTrendDf ("us") = TrendResult.success p ∧
      p.ma7 = some (mean (((shortTrendDf.filter (fun r => r.ulke == "us")).map
        (fun r => r.skor)).drop 3)) ∧
      p.ma30 = none ∧
      p.trend = " Düşüş" :=
  ⟨by decide, ⟨_, rfl, rfl, rfl, rfl⟩⟩

/-- Claim C7 (amended): for every country with at least 5 records the
predictor returns a success payload in which each rolling mean is the
mean of the last 7 (resp. 30) window scores when the window holds at
least that many records and NaN otherwise, the volatility is the
sample standard deviation of the window scores (stored here as its
square, the sample variance), and the direction label is the rising
label exactly when the window holds at least 30 records and the
7-point mean exceeds the 30-point mean — in particular, with fewer
than 30 window records the label is always the falling label. -/
theorem predict_trend_success_spec (df : List TRow) (country : String)
    (h5 : 5 ≤ (df.filter (fun r => r.ulke == country)).length) :
    ∃ p : TrendPayload,
      predict_sentiment_trend df country = TrendResult.success p ∧
      p.ma7 = (if ((recentRows df country).map (fun r => r.skor)).length < 7 then none
        else some (mean ((((recentRows df country).map (fun r => r.skor))).drop
          (((recentRows df country).map (fun r => r.skor)).length - 7)))) ∧
      p.ma30 = (if ((recentRows df country).map (fun r => r.skor)).length < 30 then none
        else some (mean ((((recentRows df country).map (fun r => r.skor))).drop
          (((recentRows df country).map (fun r => r.skor)).length - 30)))) ∧
      (p.trend = " Yükseliş" ↔
        (30 ≤ ((recentRows df country).map (fun r => r.skor)).length ∧
          mean ((((recentRows df country).map (fun r => r.skor))).drop
            (((recentRows df country).map (fun r => r.skor)).length - 30)) <
          mean ((((recentRows df country).map (fun r => r.skor))).drop
            (((recentRows df country).map (fun r => r.skor)).length - 7)))) ∧
      (p.trend = " Düşüş" ↔
        ¬ (30 ≤ ((recentRows df country).map (fun r => r.skor)).length ∧
          mean ((((recentRows df country).map (fun r => r.skor))).drop
            (((recentRows df country).map (fun r => r.skor)).length - 30)) <
          mean ((((recentRows df country).map (fun r => r.skor))).drop
            (((recentRows df country).map (fun r => r.skor)).length - 7)))) ∧
      p.volatilitySq = sampleVar? ((recentRows df country).map (fun r => r.skor)) := by
  have hlen : (country_data df country).length =
      (df.filter (fun r => r.ulke == country)).length := by
    unfold country_data
    exact List.length_insertionSort _ _
  have hcd5 : ¬ (country_data df country).length < 5 := by omega
  have hcdne : country_data df country ≠ [] := by
    intro hnil
    rw [hnil] at hcd5
    simp at hcd5
  have hrne : recentRows df country ≠ [] := by
    unfold recentRows
    cases hmax : ((country_data df country).map (fun r => r.tarih)).max? with
    | none =>
      exact absurd (List.map_eq_nil.mp (List.max?_eq_none_iff.mp hmax)) hcdne
    | some m =>
      have hm : m ∈ (country_data df country).map (fun r => r.tarih) :=
        List.max?_mem max_choice hmax
      obtain ⟨r, hr, hrm⟩ := List.mem_map.mp hm
      intro hnil
      have hmem : r ∈ (country_data df country).filter
          (fun x => decide (m - 30 ≤ x.tarih)) :=
        List.mem_filter.mpr ⟨hr, by rw [hrm]; simp⟩
      have hnil' : (country_data df country).filter
          (fun x => decide (m - 30 ≤ x.tarih)) = [] := hnil
      rw [hnil'] at hmem
      exact absurd hmem (by simp)
  have hne : ¬ (recentRows df country).isEmpty := by
    simpa [List.isEmpty_iff] using hrne
  set scores := (recentRows df country).map (fun r => r.skor) with hsc
  refine ⟨{ country := country
            current_sentiment := scores.getLast?
            ma7 := lastWindowMean scores 7
            ma30 := lastWindowMean scores 30
            trend :=
              if optGtNaN (lastWindowMean scores 7) (lastWindowMean scores 30) then
                " Yükseliş"
              else " Düşüş"
            volatilitySq := sampleVar? scores }, ?_, rfl, rfl, ?_, ?_, rfl⟩
  · unfold predict_sentiment_trend
    rw [if_neg hcd5, if_neg (by simpa using hne)]
  · show (if optGtNaN (lastWindowMean scores 7) (lastWindowMean scores 30) then
        " Yükseliş" else " Düşüş") = " Yükseliş" ↔ _
    by_cases h30 : scores.length < 30
    · have hm30 : lastWindowMean scores 30 = none := by
        unfold lastWindowMean
        rw [if_pos h30]
      rw [hm30]
      have hfalse : optGtNaN (lastWindowMean scores 7) none = false := by
        cases lastWindowMean scores 7 <;> rfl
      rw [hfalse, if_neg (by decide)]
      constructor
      · intro h
        exact absurd h (by decide)
      · rintro ⟨h30c, -⟩
        omega
    · have h7 : ¬ scores.length < 7 := by omega
      have hm7 : lastWindowMean scores 7 =
          some (mean (scores.drop (scores.length - 7))) := by
        unfold lastWindowMean
        rw [if_neg h7]
      have hm30 : lastWindowMean scores 30 =
          some (mean (scores.drop (scores.length - 30))) := by
        unfold lastWindowMean
        rw [if_neg h30]
      rw [hm7, hm30]
      simp only [optGtNaN]
      by_cases hgt : mean (scores.drop (scores.length - 30)) <
          mean (scores.drop (scores.length - 7))
      · rw [if_pos (by simpa using hgt)]
        exact iff_of_true rfl ⟨by omega, hgt⟩
      · rw [if_neg (by simpa using hgt)]
        constructor
        · intro h
          exact absurd h (by decide)
        · rintro ⟨-, h⟩
          exact absurd h hgt
  · show (if optGtNaN (lastWindowMean scores 7) (lastWindowMean scores 30) then
        " Yükseliş" else " Düşüş") = " Düşüş" ↔ _
    by_cases h30 : scores.length < 30
    · have hm30 : lastWindowMean scores 30 = none := by
        unfold lastWindowMean
        rw [if_pos h30]
      rw [hm30]
      have hfalse : optGtNaN (lastWindowMean scores 7) none = false := by
        cases lastWindowMean scores 7 <;> rfl
      rw [hfalse, if_neg (by decide)]
      exact iff_of_true rfl (by intro hc; omega)
    · have h7 : ¬ scores.length < 7 := by omega
      have hm7 : lastWindowMean scores 7 =
          some (mean (scores.drop (scores.length - 7))) := by
        unfold lastWindowMean
        rw [if_neg h7]
      have hm30 : lastWindowMean scores 30 =
          some (mean (scores.drop (scores.length - 30))) := by
        unfold lastWindowMean
        rw [if_neg h30]
      rw [hm7, hm30]
      simp only [optGtNaN]
      by_cases hgt : mean (scores.drop (scores.length - 30)) <
          mean (scores.drop (scores.length - 7))
      · rw [if_pos (by simpa using hgt)]
        constructor
        · intro h
          exact absurd h (by decide)
        · intro h
          exact absurd ⟨by omega, hgt⟩ h
      · rw [if_neg (by simpa using hgt)]
        constructor
        · intro _
          rintro ⟨-, hc⟩
          exact absurd hc hgt
        · intro _
          rfl

/-- A 30-day snapshot for a single country with one record per day,
used to witness the trend-predictor success path. -/
def trendDf : List TRow :=
  (List.range 30).map (fun i => { ulke := "us", tarih := (i : ℤ), skor := 0 })

set_option maxRecDepth 100000 in
/-- Claim C7 witness: the 30-record snapshot is within the hypothesis,
the predictor succeeds, and its volatility field is the window's
sample variance. -/
theorem predict_trend_success_spec_witness :
    5 ≤ (trendDf.filter (fun r => r.ulke == "us")).length ∧
    ∃ p : TrendPayload,
      predict_sentiment_trend trendDf ("us") = TrendResult.success p ∧
      p.volatilitySq = sampleVar? ((recentRows trendDf ("us")).map (fun r => r.skor)) := by
  refine ⟨by decide, ?_⟩
  obtain ⟨p, h1, -, -, -, -, h6⟩ :=
    predict_trend_success_spec trendDf ("us") (by decide)
  exact ⟨p, h1, h6⟩

/-! ### src/main_old.py — article filtering in NewsAnalyzer.process_articles -/

/-- A raw article dict as returned by the news API; `none` models a
missing key (`dict.get` returning None). -/
structure RawArticle where
  title : Option String
  url : Option String
  source_name : Option String

/-- Python's `in` operator on strings: `pat` occurs in `s` as a
contiguous substring. -/
def containsSubstr (s pat : String) : Bool :=
  (List.range (s.data.length + 1)).any (fun i => pat.data.isPrefixOf (s.data.drop i))

/-- Python truthiness of an optional string: None and "" are falsy. -/
def truthyStr : Option String → Bool
  | none => false
  | some s => !(s == "")

/-- The drop condition of `NewsAnalyzer.process_articles`
(src/main_old.py): `not baslik or not link or "[Removed]" in baslik`.
Short-circuit evaluation means the substring test only runs on a
truthy title. -/
def dropArticle (a : RawArticle) : Bool :=
  !(truthyStr a.title) || !(truthyStr a.url) ||
    (match a.title with
     | none => false
     | some t => containsSubstr t ("[Removed]"))

/-- The article filter: keep exactly the articles not dropped.  It
reads the article and never mutates it. -/
def keepArticle (a : RawArticle) : Bool := !(dropArticle a)

/-- Claim C8: the filter drops an article exactly when its title is
missing or falsy, its url is missing or falsy, or its title contains
the removal placeholder "[Removed]" — so a marker-containing title is
always dropped regardless of the other fields. -/
theorem article_filter_spec (a : RawArticle) :
    keepArticle a = false ↔
      (a.title = none ∨ a.title = some "" ∨ a.url = none ∨ a.url = some "" ∨
        ∃ t, a.title = some t ∧ containsSubstr t ("[Removed]") = true) := by
  obtain ⟨t, u, s⟩ := a
  rcases t with _ | t <;> rcases u with _ | u <;>
    simp [keepArticle, dropArticle, truthyStr] <;>
    by_cases ht : t = "" <;> simp [ht] <;>
    by_cases hu : u = "" <;> simp [hu] <;>
    tauto

/-! ### src/utils.py — RiskScoringEngine -/

/-- A snapshot row as consumed by
`RiskScoringEngine.calculate_risk_score`: country, title and sentiment
score. -/
structure RiskRow where
  ulke : String
  baslik : String
  skor : ℚ

/-- `RiskScoringEngine.CRITICAL_KEYWORDS`. -/
def CRITICAL_KEYWORDS : List String :=
  ["breach", "hack", "exploit", "vulnerability", "crash", "fail",
   "risk", "threat", "danger", "critical", "emergency", "urgent",
   "crisis", "disaster", "attack", "malware", "ransomware"]

/-- `str.lower()` on the title. -/
def lowerStr (s : String) : String := ⟨s.data.map Char.toLower⟩

/-- `baslik.str.lower().str.contains(keyword-alternation)`: the
keywords are literal words, so the regex alternation is the same as
any-substring. -/
def hasCriticalKeyword (title : String) : Bool :=
  CRITICAL_KEYWORDS.any (fun k => containsSubstr (lowerStr title) k)

/-- Sentiment scores of a country's rows within the snapshot
(`df.groupby ulke` restricted to one group). -/
def countryScores (df : List RiskRow) (c : String) : List ℚ :=
  (df.filter (fun r => r.ulke == c)).map (fun r => r.skor)

/-- `series.clip(lo, hi)`. -/
def clip (lo hi x : ℚ) : ℚ := min (max x lo) hi

/-- `RiskScoringEngine.calculate_risk_score`, per record.  The
per-country sample standard deviation that pandas computes by a
groupby-transform is supplied as `sigma` (none models the NaN
of a single-record country); the faithfulness condition relating
`sigma` to the snapshot is `SigmaModelsStd` below, stated with the
variance `sampleVar?` since the standard deviation itself is
irrational in general.  NaN propagates through the sum, and
`clip` keeps NaN, so a NaN volatility yields a NaN risk score
(`none`). -/
def risk_score (sigma : String → Option ℚ) (df : List RiskRow) (r : RiskRow) :
    Option ℚ :=
  (sigma r.ulke).map (fun s =>
    clip 0 100
      (((r.skor + 1) / 2 * 100) * (4/10) +
        (((countryScores df r.ulke).length : ℚ) / (df.length : ℚ) * 100) * (3/10) +
        s * 100 * (2/10) +
        (if hasCriticalKeyword r.baslik then (1:ℚ) else 0) * 100 * (1/10)))

/-- The five ordered labels of the `pd.cut` bucketing. -/
def riskLabels : List String := ["Çok Düşük", "Düşük", "Orta", "Yüksek", "Kritik"]

/-- `pd.cut(score, bins := [0,20,40,60,80,100], labels := ...)`:
right-closed, left-open intervals; values ≤ 0, > 100 or NaN fall in no
bin and get the NaN category. -/
def riskBucket (x : ℚ) : Option String :=
  if x ≤ 0 then none
  else if x ≤ 20 then some ("Çok Düşük")
  else if x ≤ 40 then some ("Düşük")
  else if x ≤ 60 then some ("Orta")
  else if x ≤ 80 then some ("Yüksek")
  else if x ≤ 100 then some ("Kritik")
  else none

/-- The risk_category column: bucket of the risk score, NaN for NaN. -/
def risk_category (sigma : String → Option ℚ) (df : List RiskRow) (r : RiskRow) :
    Option String :=
  (risk_score sigma df r).bind riskBucket

/-- `sigma` agrees at country `c` with the pandas per-country sample
standard deviation over the snapshot: NaN (none) for fewer than two
records, otherwise the nonnegative square root of the sample
variance. -/
def SigmaModelsStd (sigma : String → Option ℚ) (df : List RiskRow) (c : String) :
    Prop :=
  ((countryScores df c).length ≤ 1 → sigma c = none) ∧
  (2 ≤ (countryScores df c).length →
    ∃ s v, sigma c = some s ∧ sampleVar? (countryScores df c) = some v ∧
      0 ≤ s ∧ s^2 = v)

/-- A snapshot holding a single record (hence a single-record
country). -/
def singletonRow : RiskRow := { ulke := "us", baslik := "calm day", skor := 0 }

def singletonDf : List RiskRow := [singletonRow]

/-- Claim C9 (counterexample): in a snapshot whose country has a
single record the pandas standard deviation is NaN, so the record's
risk score is NaN and it is assigned none of the five bucket labels —
refuting the claim that every record gets a composite score and one of
exactly five labels. -/
theorem risk_category_single_record_unlabelled :
    SigmaModelsStd (fun _ => none) singletonDf ("us") ∧
    singletonRow ∈ singletonDf ∧
    risk_score (fun _ => none) singletonDf singletonRow = none ∧
    risk_category (fun _ => none) singletonDf singletonRow = none := by
  refine ⟨⟨fun _ => rfl, fun h2 => ?_⟩, by simp [singletonDf], rfl, rfl⟩
  have : (countryScores singletonDf ("us")).length = 1 := by decide
  omega

/-- Every clipped score strictly inside (0, 100] falls in exactly one
of the five pd.cut buckets. -/
theorem riskBucket_mem (x : ℚ) (h0 : 0 < x) (h100 : x ≤ 100) :
    ∃ lab, riskBucket x = some lab ∧ lab ∈ riskLabels := by
  unfold riskBucket
  split_ifs with h1 h2 h3 h4 h5 h6 <;>
    first
      | exact ⟨_, rfl, by simp [riskLabels]⟩
      | exact absurd h0 (not_lt.mpr h1)
      | exact absurd h100 (by assumption)

/-- Claim C9 (amended): for a record whose sentiment score is ≥ −1
(the pipeline invariant) and whose country has at least two records in
the snapshot — so that the pandas standard deviation `s` is a number
rather than NaN — the composite risk score is the weighted sum of the
four components (sentiment 0.4, relative country frequency 0.3,
per-country volatility 0.2, critical-keyword flag 0.1, each scaled to
0–100) clipped to [0, 100], and the record receives exactly one of the
five ordered bucket labels.  A record of a single-record country
instead gets a NaN score and no label (see the counterexample). -/
theorem risk_score_spec (sigma : String → Option ℚ) (df : List RiskRow)
    (r : RiskRow) (s v : ℚ) (hmem : r ∈ df) (hskor : -1 ≤ r.skor)
    (hs : sigma r.ulke = some s) (hs0 : 0 ≤ s)
    (hv : sampleVar? (countryScores df r.ulke) = some v) (hsv : s^2 = v) :
    risk_score sigma df r =
      some (clip 0 100
        (((r.skor + 1) / 2 * 100) * (4/10) +
          (((countryScores df r.ulke).length : ℚ) / (df.length : ℚ) * 100) * (3/10) +
          s * 100 * (2/10) +
          (if hasCriticalKeyword r.baslik then (1:ℚ) else 0) * 100 * (1/10))) ∧
    ∃ lab, risk_category sigma df r = some lab ∧ lab ∈ riskLabels := by
  have hscore : risk_score sigma df r =
      some (clip 0 100
        (((r.skor + 1) / 2 * 100) * (4/10) +
          (((countryScores df r.ulke).length : ℚ) / (df.length : ℚ) * 100) * (3/10) +
          s * 100 * (2/10) +
          (if hasCriticalKeyword r.baslik then (1:ℚ) else 0) * 100 * (1/10))) := by
    unfold risk_score
    rw [hs]
    rfl
  have hkpos : 1 ≤ (countryScores df r.ulke).length := by
    have : r ∈ df.filter (fun x => x.ulke == r.ulke) :=
      List.mem_filter.mpr ⟨hmem, by simp⟩
    have hlen : 1 ≤ (df.filter (fun x => x.ulke == r.ulke)).length :=
      List.length_pos.mpr (List.ne_nil_of_mem this)
    simpa [countryScores] using hlen
  have hnpos : 1 ≤ df.length :=
    List.length_pos.mpr (List.ne_nil_of_mem hmem)
  have hfreq : 0 < (((countryScores df r.ulke).length : ℚ) / (df.length : ℚ) * 100) * (3/10) := by
    have hk : (0:ℚ) < ((countryScores df r.ulke).length : ℚ) := by
      exact_mod_cast hkpos
    have hn : (0:ℚ) < (df.length : ℚ) := by exact_mod_cast hnpos
    positivity
  have hsent : 0 ≤ ((r.skor + 1) / 2 * 100) * (4/10) := by linarith
  have hvol : 0 ≤ s * 100 * (2/10) := by linarith
  have hkw : 0 ≤ (if hasCriticalKeyword r.baslik then (1:ℚ) else 0) * 100 * (1/10) := by
    split_ifs <;> norm_num
  set total : ℚ :=
    ((r.skor + 1) / 2 * 100) * (4/10) +
      (((countryScores df r.ulke).length : ℚ) / (df.length : ℚ) * 100) * (3/10) +
      s * 100 * (2/10) +
      (if hasCriticalKeyword r.baslik then (1:ℚ) else 0) * 100 * (1/10) with htot
  have htpos : 0 < total := by rw [htot]; linarith
  have hclip0 : 0 < clip 0 100 total := by
    unfold clip
    rw [max_eq_left htpos.le]
    exact lt_min htpos (by norm_num)
  have hclip100 : clip 0 100 total ≤ 100 := by
    unfold clip
    exact min_le_right _ _
  obtain ⟨lab, hlab, hlabmem⟩ := riskBucket_mem (clip 0 100 total) hclip0 hclip100
  refine ⟨hscore, lab, ?_, hlabmem⟩
  unfold risk_category
  rw [hscore]
  simpa using hlab

/-- Two same-country rows with equal scores, so that the per-country
sample standard deviation is exactly 0 (a rational), for the claim C9
witness. -/
def pairRow1 : RiskRow := { ulke := "us", baslik := "calm morning", skor := 0 }

def pairRow2 : RiskRow := { ulke := "us", baslik := "quiet evening", skor := 0 }

def pairDf : List RiskRow := [pairRow1, pairRow2]

/-- Claim C9 witness: on the two-record snapshot all hypotheses hold
with standard deviation 0, and the first record receives one of the
five bucket labels. -/
theorem risk_score_spec_witness :
    (pairRow1 ∈ pairDf ∧ (-1 : ℚ) ≤ pairRow1.skor ∧
      (fun _ => some (0:ℚ)) pairRow1.ulke = some 0 ∧ (0:ℚ) ≤ 0 ∧
      sampleVar? (countryScores pairDf pairRow1.ulke) = some 0 ∧
      (0:ℚ)^2 = 0) ∧
    ∃ lab, risk_category (fun _ => some (0:ℚ)) pairDf pairRow1 = some lab ∧
      lab ∈ riskLabels := by
  have hmem : pairRow1 ∈ pairDf := by simp [pairDf]
  have hskor : (-1 : ℚ) ≤ pairRow1.skor := by norm_num [pairRow1]
  have hv : sampleVar? (countryScores pairDf pairRow1.ulke) = some 0 := by
    norm_num [sampleVar?, countryScores, pairDf, pairRow1, pairRow2, mean,
      List.sum_cons, List.sum_nil, List.filter_cons]
  refine ⟨⟨hmem, hskor, rfl, le_refl 0, hv, by norm_num⟩, ?_⟩
  exact (risk_score_spec (fun _ => some (0:ℚ)) pairDf pairRow1 0 0 hmem hskor rfl
    (le_refl 0) hv (by norm_num)).2

/-! ### src/services/analyzer.py — NewsAnalyzer -/

/-- An incoming news dict for `NewsAnalyzer.analyze_news`; `none`
models a dict without the baslik key. -/
structure NewsItem where
  baslik : Option String
  url : String
  ulke : String

/-- The analyzed record: the input dict plus the fields the analyzer
adds (none for a field the code path does not add). -/
structure AnalyzedRecord where
  item : NewsItem
  skor : Option ℚ
  kategori : Option String
  risk_seviyesi : Option String

/-- `NewsAnalyzer.analyze_news` from src/services/analyzer.py, with
the injected sentiment analyzer and category classifier as oracles
that may fail (Except models a raised exception or a None return).
A dict without baslik is returned unchanged; a falsy title yields the
neutral defaults; each sub-step catches its own failures and falls
back to 0.0 / Unknown. -/
def analyze_news (sent : String → Except String ℚ)
    (cls : String → Except String String) (cfg : RiskThresholdsConfig)
    (news : NewsItem) : AnalyzedRecord :=
  match news.baslik with
  | none => { item := news, skor := none, kategori := none, risk_seviyesi := none }
  | some baslik =>
    if baslik = "" then
      { item := news, skor := some 0, kategori := some ("Unknown"),
        risk_seviyesi := some ("NORMAL") }
    else
      let sentiment_score :=
        match sent (baslik.take 512) with
        | Except.ok x => x
        | Except.error _ => 0
      let category :=
        match cls (baslik.take 512) with
        | Except.ok c => if c = "" then "Unknown" else c
        | Except.error _ => "Unknown"
      { item := news, skor := some sentiment_score,
        kategori := some category,
        risk_seviyesi := some (cfg.get_risk_level sentiment_score) }

/-- The record `analyze_batch` appends when analysis of one article
raises: score 0.0, category Error, risk sentinel HATA. -/
def errorRecord (news : NewsItem) : AnalyzedRecord :=
  { item := news, skor := some 0, kategori := some ("Error"),
    risk_seviyesi := some ("HATA") }

/-- `NewsAnalyzer.analyze_batch` from src/services/analyzer.py: a
falsy input list yields []; otherwise each article is analyzed in
order by `step` (the analyze_news call, abstracted so that a raising
analysis can be modelled) and appended to the results, with a failing
article contributing `errorRecord` instead of being dropped. -/
def analyze_batch (step : NewsItem → Except String AnalyzedRecord)
    (news_list : List NewsItem) : List AnalyzedRecord :=
  if news_list.isEmpty then []
  else
    news_list.foldl
      (fun results news =>
        results ++
          [match step news with
            | Except.ok r => r
            | Except.error _ => errorRecord news])
      []

/-- What one loop iteration of `analyze_batch` contributes for one
article. -/
def stepOrError (step : NewsItem → Except String AnalyzedRecord)
    (news : NewsItem) : AnalyzedRecord :=
  match step news with
  | Except.ok r => r
  | Except.error _ => errorRecord news

theorem foldl_append_eq_map {α β : Type} (f : α → β) (l : List α)
    (init : List β) :
    l.foldl (fun acc a => acc ++ [f a]) init = init ++ l.map f := by
  induction l generalizing init with
  | nil => simp
  | cons a rest ih =>
    rw [List.foldl_cons, ih, List.map_cons, List.append_assoc,
      List.singleton_append]

/-- Claim C10: `analyze_batch` returns one output record per input
article, in input order — its output has exactly the input's length,
an empty input yields an empty output, and the i-th output is the
analysis of the i-th input, or its `errorRecord` (score 0.0, category
Error, risk HATA) when that analysis failed, never dropped. -/
theorem analyze_batch_one_output_per_input
    (step : NewsItem → Except String AnalyzedRecord)
    (news_list : List NewsItem) :
    (analyze_batch step news_list).length = news_list.length ∧
    analyze_batch step [] = [] ∧
    ∀ i : ℕ, (analyze_batch step news_list).get? i =
      (news_list.get? i).map (stepOrError step) := by
  have hmap : analyze_batch step news_list = news_list.map (stepOrError step) := by
    unfold analyze_batch
    split_ifs with h
    · rw [List.isEmpty_iff.mp h]
      rfl
    · show news_list.foldl
          (fun results news => results ++ [stepOrError step news]) [] =
        news_list.map (stepOrError step)
      rw [foldl_append_eq_map (stepOrError step) news_list []]
      rfl
  refine ⟨?_, rfl, ?_⟩
  · rw [hmap, List.length_map]
  · intro i
    rw [hmap, List.get?_map]

end Aura
